import Mathlib

/-!
Verification of the compliance-analysis backend against its specification.

The definitions below are shallow embeddings of the Python services under
`backend/app`: each Lean definition mirrors one Python function or SQL
statement, with machine floats modelled as exact rationals, wall-clock
reads passed in as explicit parameters, and fallible operations returning
`Option`/`Except`.  Theorems then settle the specified properties against
these embeddings.
-/

namespace IBMW

/-! ## Rounding

Python's built-in `round(x, 2)` rounds to two decimal places using
round-half-to-even.  `app/services/langgraph_agents.py` applies it to the
Judge's average confidence and to the Navigator's per-hit similarity.
We model it exactly over the rationals. -/

/-- Round a rational to the nearest integer, ties going to the even
integer (Python's rounding mode). -/
def roundHalfEven (q : ℚ) : ℤ :=
  let f : ℤ := ⌊q⌋
  let frac : ℚ := q - f
  if frac < 1/2 then f
  else if frac > 1/2 then f + 1
  else if f % 2 = 0 then f else f + 1

/-- Model of Python's `round(q, 2)`: round to two decimal places,
half to even. -/
def pyRound2 (q : ℚ) : ℚ := (roundHalfEven (q * 100) : ℚ) / 100

/-! ## Adjudicator: `LLMService.analyze_compliance` (`app/services/llm.py`)

`analyze_compliance` sends the rule and code to the LLM provider and then
tries `json.loads(response)`.  Following the spec's design note, the
exception-for-control-flow around the parse is modelled as an explicit
sum: the parse step yields `some parsed` on success and `none` when the
provider payload is not valid JSON (`json.loads` raises on any non-JSON
string, including the empty string). -/

/-- The structured result dictionary produced by `analyze_compliance`. -/
structure ComplianceResult where
  verdict : String
  severity : String
  severity_score : ℚ
  explanation : String
  evidence : Option String
  remediation : Option String
deriving DecidableEq, Repr

/-- The coerced dictionary returned by the `except json.JSONDecodeError`
branch of `analyze_compliance` (llm.py lines 170-179). -/
def analyze_compliance_fallback (response : String) : ComplianceResult :=
  { verdict := "unknown"
    severity := "medium"
    severity_score := 5
    explanation := response
    evidence := none
    remediation := none }

/-- `analyze_compliance` after the provider call: return the parsed JSON
when `json.loads` succeeds, otherwise the coerced fallback carrying the
raw payload. -/
def analyze_compliance_result (parsed : Option ComplianceResult)
    (response : String) : ComplianceResult :=
  match parsed with
  | some r => r
  | none => analyze_compliance_fallback response

/-! ## Chunker: `CodeChunker` (`app/services/chunker.py`) -/

/-- `CodeChunker.estimate_tokens`: Python's `len(text) // 4`
(floor division). -/
def estimate_tokens (text : String) : Nat := text.length / 4

/-- A draft span produced by the AST-heuristic extractor, as consumed by
`chunk_file`. -/
structure AstChunk where
  text : String
  start_line : Nat
  end_line : Nat
  node_type : String
  name : String
deriving DecidableEq, Repr

/-- A chunk dictionary produced by `chunk_file`.  The `split_mark` field
records the `{"split_chunk": True}` metadata set by `_split_large_chunk`. -/
structure ChunkOut where
  file_path : String
  language : String
  start_line : Nat
  end_line : Nat
  chunk_text : String
  ast_node_type : Option String
  chunk_hash : String
  split_mark : Bool
deriving DecidableEq, Repr

/-- The index list `range(0, stop, step)` of Python for positive `step`. -/
def pythonRangeStep (stop step : Nat) : List Nat :=
  if step = 0 then []
  else (List.range ((stop + step - 1) / step)).map (· * step)

/-- `CodeChunker._split_large_chunk`: split the text on newlines and emit
line-aligned groups of at most `max_tokens // 4` lines each. -/
def split_large_chunk (maxTokens : Nat) (hashFn : String → String)
    (file_path language : String) (text : String) (start_line : Nat) :
    List ChunkOut :=
  let lines := text.splitOn "\n"
  let maxLines := maxTokens / 4
  (pythonRangeStep lines.length maxLines).map (fun i =>
    let chunkLines := (lines.drop i).take maxLines
    let chunkText := String.intercalate "\n" chunkLines
    { file_path := file_path
      language := language
      start_line := start_line + i
      end_line := start_line + i + chunkLines.length
      chunk_text := chunkText
      ast_node_type := none
      chunk_hash := hashFn chunkText
      split_mark := true })

/-- The AST-path body of `CodeChunker.chunk_file`: drop drafts under
`min_tokens`, split drafts over `max_tokens`, keep the rest verbatim. -/
def chunk_file_ast (minTokens maxTokens : Nat) (hashFn : String → String)
    (file_path language : String) (drafts : List AstChunk) : List ChunkOut :=
  drafts.foldl (fun chunks d =>
    let tokenCount := estimate_tokens d.text
    if tokenCount < minTokens then chunks
    else if tokenCount > maxTokens then
      chunks ++ split_large_chunk maxTokens hashFn file_path language
        d.text d.start_line
    else
      chunks ++ [{ file_path := file_path
                   language := language
                   start_line := d.start_line
                   end_line := d.end_line
                   chunk_text := d.text
                   ast_node_type := some d.node_type
                   chunk_hash := hashFn d.text
                   split_mark := false }]) []

/-- Default `max_chunk_tokens` from `app/config.py`. -/
def max_chunk_tokens : Nat := 1500

/-- Default `min_chunk_tokens` from `app/config.py`. -/
def min_chunk_tokens : Nat := 50

/-- A draft body shorter than `4 * min_chunk_tokens` characters. -/
def sample_text_small : String := "x = 1"

/-- A draft body estimating to exactly `max_chunk_tokens` tokens
(6000 characters). -/
def sample_text_max : String := String.mk (List.replicate 6000 'a')

/-- A draft body estimating to `max_chunk_tokens + 1` tokens
(6004 characters). -/
def sample_text_over : String := String.mk (List.replicate 6004 'a')

/-- Build a one-function draft around a given body. -/
def sample_draft (t : String) : AstChunk :=
  { text := t, start_line := 1, end_line := 40,
    node_type := "function_definition", name := "f" }

/-! ## Similarity gating (`langgraph_agents.py` Navigator,
`indexing_worker.py` compliance analysis)

The Navigator keeps retrieval rows satisfying `row['similarity'] > 0.7`
(a strict literal comparison), attaching the first 200 characters of the
chunk text.  `_async_analyze_compliance` instead skips a row when
`code_chunk.get("distance", 1.0) > 1.0 - settings.similarity_threshold`. -/

/-- Default `similarity_threshold` from `app/config.py`. -/
def similarity_threshold : ℚ := 7/10

/-- A row of the Navigator's vector-search query: `file_path`,
`chunk_text` and `1 - (embedding <=> query)` as `similarity`. -/
structure NavRow where
  file_path : String
  chunk_text : String
  similarity : ℚ
deriving DecidableEq, Repr

/-- A matched-file entry appended by the Navigator. -/
structure NavMatch where
  path : String
  confidence : ℚ
  task : String
  snippet : String
deriving DecidableEq, Repr

/-- The matched-file dictionary the Navigator builds from a kept row. -/
def nav_match_of (task : String) (r : NavRow) : NavMatch :=
  { path := r.file_path
    confidence := pyRound2 r.similarity
    task := task
    snippet := r.chunk_text.take 200 }

/-- `CodeNavigatorAgent.execute`, per task: keep rows with
`similarity > 0.7` and turn each into a matched-file entry. -/
def navigator_filter (rows : List NavRow) (task : String) : List NavMatch :=
  (rows.filter fun r => r.similarity > 7/10).map (nav_match_of task)

/-- The keep/skip decision of `_async_analyze_compliance` for one
retrieved chunk: skip when `distance` (defaulting to 1.0) exceeds
`1 - similarity_threshold`. -/
def analyze_keeps (distance : Option ℚ) : Bool :=
  if distance.getD 1 > 1 - similarity_threshold then false else true

/-! ## Investigator and Judge (`langgraph_agents.py`)

`CodeInvestigatorAgent.execute` collects per-hit evidence dictionaries
and classifies the overall status; `ConsistencyCheckerAgent.execute`
averages the per-hit confidences and maps the status to the final
verdict. -/

/-- A per-hit evidence entry produced by the Investigator. -/
structure EvidenceItem where
  file : String
  status : String
  finding : String
  confidence : ℚ
deriving DecidableEq, Repr

/-- The case-level verdict dictionary produced by the Judge. -/
structure FinalVerdict where
  final_verdict : String
  confidence : ℚ
  reason : String
  evidence_count : Nat
deriving DecidableEq, Repr

/-- The Investigator's overall assessment (langgraph_agents.py line 237):
`compliant` if every hit is `implemented`, else `non_compliant` if any
hit is `missing`, else `partial`. -/
def investigator_overall_status (evidence : List EvidenceItem) : String :=
  if evidence.all (fun e => e.status == "implemented") then "compliant"
  else if evidence.any (fun e => e.status == "missing") then "non_compliant"
  else "partial"

/-- `ConsistencyCheckerAgent.execute`: average the hit confidences
(0.5 on an empty list), round to two decimals, and map the
Investigator's status to the final verdict and reason. -/
def judge_verdict (status : String) (evidence : List EvidenceItem) :
    FinalVerdict :=
  let confidences := evidence.map (·.confidence)
  let avg : ℚ :=
    if confidences.isEmpty then 1/2
    else confidences.sum / (confidences.length : ℚ)
  if status == "compliant" then
    { final_verdict := "compliant", confidence := pyRound2 avg,
      reason := "All compliance controls properly implemented",
      evidence_count := evidence.length }
  else if status == "non_compliant" then
    let missingItems :=
      (evidence.filter (fun e => e.status == "missing")).map (·.finding)
    { final_verdict := "non_compliant", confidence := pyRound2 avg,
      reason := "Missing controls: " ++
        String.intercalate "; " (missingItems.take 3),
      evidence_count := evidence.length }
  else
    { final_verdict := "partial", confidence := pyRound2 avg,
      reason := "Implementation incomplete",
      evidence_count := evidence.length }

/-- Composition of Investigator and Judge on one scan's evidence list. -/
def case_verdict (evidence : List EvidenceItem) : FinalVerdict :=
  judge_verdict (investigator_overall_status evidence) evidence

/-! ## Code-map store (`app/models/database.py`)

`CodeMapQueries.insert_batch` upserts with `ON CONFLICT (chunk_hash) DO
UPDATE`, refreshing only the enrichment fields; the schema
(`create_code_map.py`) declares `UNIQUE (chunk_hash)` globally.
`RepositoryQueries.update_sync_status` overwrites the repo's sync
columns. -/

/-- A row of the `code_map` table. -/
structure CodeRow where
  repo_id : Nat
  file_path : String
  language : String
  start_line : Nat
  end_line : Nat
  chunk_text : String
  file_hash : String
  chunk_hash : String
  embedding : Option (List ℚ)
  nl_summary : Option String
  call_links : String
  variables_json : String
  config_keys : String
  semantic_tags : String
  previous_hash : Option String
  delta_type : Option String
deriving DecidableEq, Repr

/-- One `INSERT ... ON CONFLICT (chunk_hash) DO UPDATE` statement: if a
row with the same `chunk_hash` exists (in any repository), refresh its
enrichment fields in place, otherwise append the new row. -/
def upsert_row (table : List CodeRow) (c : CodeRow) : List CodeRow :=
  if table.any (fun r => r.chunk_hash == c.chunk_hash) then
    table.map (fun r =>
      if r.chunk_hash == c.chunk_hash then
        { r with embedding := c.embedding, nl_summary := c.nl_summary,
                 call_links := c.call_links, variables_json := c.variables_json,
                 config_keys := c.config_keys,
                 semantic_tags := c.semantic_tags,
                 previous_hash := c.previous_hash,
                 delta_type := c.delta_type }
      else r)
  else table ++ [c]

/-- `CodeMapQueries.insert_batch`: execute the upsert statement once per
chunk dictionary. -/
def insert_batch (table : List CodeRow) (chunks : List CodeRow) :
    List CodeRow :=
  chunks.foldl upsert_row table

/-- Number of live `code_map` rows owned by a repository. -/
def live_count (table : List CodeRow) (repoId : Nat) : Nat :=
  (table.filter (fun r => r.repo_id == repoId)).length

/-- The sync columns of a `repos` row touched by `update_sync_status`. -/
structure RepoCounts where
  last_commit_sha : String
  last_synced_at : Nat
  indexed_file_count : Nat
  total_chunks : Nat
deriving DecidableEq, Repr

/-- `RepositoryQueries.update_sync_status`: one atomic `UPDATE` of the
repo's sync columns. -/
def update_sync_status (_repo : RepoCounts) (sha : String)
    (now fileCount chunkCount : Nat) : RepoCounts :=
  { last_commit_sha := sha, last_synced_at := now,
    indexed_file_count := fileCount, total_chunks := chunkCount }

/-- The persist step of `_async_index_repository` (lines 279-284):
`insert_batch` the produced chunks, then store `file_count` and
`len(all_chunks)` on the repo row. -/
def index_pass_persist (table : List CodeRow) (repo : RepoCounts)
    (chunks : List CodeRow) (sha : String) (now fileCount : Nat) :
    List CodeRow × RepoCounts :=
  (insert_batch table chunks,
   update_sync_status repo sha now fileCount chunks.length)

/-! ## Indexing run with failure points (`_async_index_repository`)

The worker's try-block runs clone, walk/chunk, enrich, `insert_batch`,
`update_sync_status` in order; any exception is caught and mapped to a
`{"status": "failed"}` result.  `insert_batch` runs inside its own
transaction and `update_sync_status` is a single atomic statement, so a
failure during a stage leaves that stage without effect while earlier
stages' effects persist. -/

/-- Database state visible to one indexing run. -/
structure IndexDbState where
  repo : RepoCounts
  code_map : List CodeRow
deriving DecidableEq, Repr

/-- Effect of stage `n` of the run on the database: stages 0-2 (clone,
walk/chunk, enrich) do not touch the database, stage 3 is `insert_batch`,
stage 4 is `update_sync_status`. -/
def index_stage_effect (chunks : List CodeRow) (sha : String)
    (now fileCount : Nat) (db : IndexDbState) (stage : Nat) :
    IndexDbState :=
  if stage = 3 then { db with code_map := insert_batch db.code_map chunks }
  else if stage = 4 then
    { db with repo :=
        update_sync_status db.repo sha now fileCount chunks.length }
  else db

/-- Run the first `n` stages of the indexing pipeline. -/
def run_index_stages (chunks : List CodeRow) (sha : String)
    (now fileCount : Nat) (db : IndexDbState) (n : Nat) : IndexDbState :=
  (List.range n).foldl (index_stage_effect chunks sha now fileCount) db

/-- `_async_index_repository` with an explicit failure point: `none`
runs all five stages and returns a success result; `some k` raises
during stage `k`, so stages before `k` have taken effect and the catch
branch returns a failed result. -/
def run_index (chunks : List CodeRow) (sha : String) (now fileCount : Nat)
    (db : IndexDbState) (failAt : Option Nat) : IndexDbState × String :=
  match failAt with
  | none => (run_index_stages chunks sha now fileCount db 5, "success")
  | some k => (run_index_stages chunks sha now fileCount db k, "failed")

/-! ## Audit orchestrator steps (`app/services/orchestrator.py`)

`AuditOrchestrator` tracks `steps_completed`, `steps_pending` and
`current_step` on the `audit_cases` row, starting with all steps pending
and the first step current, and moving steps on `_mark_step_complete`. -/

/-- `AuditOrchestrator.workflow_steps`. -/
def workflow_steps : List String :=
  ["rule_ingestion", "code_scanning", "compliance_checking",
   "report_generation"]

/-- The step-tracking columns of an `audit_cases` row. -/
structure CaseState where
  status : String
  current_step : Option String
  steps_completed : List String
  steps_pending : List String
deriving DecidableEq, Repr

/-- The row inserted by `start_audit`: status `running`, the first
workflow step current, nothing completed, every step pending. -/
def initial_case : CaseState :=
  { status := "running", current_step := workflow_steps[0]?,
    steps_completed := [], steps_pending := workflow_steps }

/-- `AuditOrchestrator._mark_step_complete`: append the step to
`steps_completed` (if absent), remove it from `steps_pending`, and set
`current_step` to the first workflow step not yet completed. -/
def mark_step_complete (c : CaseState) (step : String) : CaseState :=
  let completed :=
    if step ∈ c.steps_completed then c.steps_completed
    else c.steps_completed ++ [step]
  let pending := c.steps_pending.erase step
  let next := workflow_steps.find? (fun s => !(completed.contains s))
  { c with steps_completed := completed, steps_pending := pending,
           current_step := next }

/-- `AuditOrchestrator._update_case_status`: overwrite `status` and
`current_step`. -/
def update_case_status (c : CaseState) (status : String)
    (cur : Option String) : CaseState :=
  { c with status := status, current_step := cur }

/-- Every state the case row passes through in a full successful audit:
creation, the three `_mark_step_complete` calls of steps 1-3, the
`waiting_approval` pause of step 4, the final `_mark_step_complete` on
resume, and the closing status update. -/
def audit_case_states : List CaseState :=
  let s0 := initial_case
  let s1 := mark_step_complete s0 "rule_ingestion"
  let s2 := mark_step_complete s1 "code_scanning"
  let s3 := mark_step_complete s2 "compliance_checking"
  let s4 := update_case_status s3 "waiting_approval"
    (some "report_generation")
  let s5 := mark_step_complete s4 "report_generation"
  let s6 := update_case_status s5 "completed" none
  [s0, s1, s2, s3, s4, s5, s6]

/-- The multiset union `steps_completed ∪ {current_step?} ∪ steps_pending`
of a case row. -/
def stepsUnion (c : CaseState) : List String :=
  c.steps_completed ++ c.current_step.toList ++ c.steps_pending

/-- The union of the three step collections covers exactly the fixed
workflow step set. -/
def unionEqWorkflow (c : CaseState) : Prop :=
  (stepsUnion c).toFinset = workflow_steps.toFinset

/-- The three step collections are pairwise disjoint. -/
def partsPairwiseDisjoint (c : CaseState) : Prop :=
  (∀ s ∈ c.steps_completed, s ∉ c.steps_pending) ∧
  (∀ s ∈ c.steps_completed, c.current_step ≠ some s) ∧
  (∀ s ∈ c.steps_pending, c.current_step ≠ some s)

/-- The step-partition property asserted by the specification: union
equals the workflow set and the three parts are pairwise disjoint. -/
def caseStepClaimInvariant (c : CaseState) : Prop :=
  unionEqWorkflow c ∧ partsPairwiseDisjoint c

/-- The step property the orchestrator actually maintains: union equals
the workflow set, `steps_completed` and `steps_pending` are disjoint,
the current step is never already completed, but the current step (when
set) still sits in `steps_pending`. -/
def caseStepCodeInvariant (c : CaseState) : Prop :=
  unionEqWorkflow c ∧
  (∀ s ∈ c.steps_completed, s ∉ c.steps_pending) ∧
  (∀ s ∈ c.steps_completed, c.current_step ≠ some s) ∧
  (∀ s ∈ c.current_step.toList, s ∈ c.steps_pending)

instance (c : CaseState) : Decidable (unionEqWorkflow c) := by
  unfold unionEqWorkflow
  infer_instance

instance (c : CaseState) : Decidable (partsPairwiseDisjoint c) := by
  unfold partsPairwiseDisjoint
  infer_instance

instance (c : CaseState) : Decidable (caseStepClaimInvariant c) := by
  unfold caseStepClaimInvariant
  infer_instance

instance (c : CaseState) : Decidable (caseStepCodeInvariant c) := by
  unfold caseStepCodeInvariant
  infer_instance

/-! ## Retrieval: `CodeMapQueries.search_similar`
(`app/models/database.py` lines 223-247)

The query is `SELECT *, embedding <-> $1 AS distance FROM code_map WHERE
repo_id = $2 ORDER BY embedding <-> $1 LIMIT $3`.  SQL guarantees the
output is some ascending-by-distance arrangement of at most `top_k`
closest rows; with no further ORDER BY column, the arrangement of rows
at equal distance is unspecified.  `validSearchResult` captures exactly
this contract; the distance column is the row's distance to the fixed
query embedding. -/

/-- A retrieval row with its computed `distance` column. -/
structure SearchHit where
  file_path : String
  start_line : Nat
  distance : ℚ
deriving DecidableEq, Repr

/-- The rows are arranged in ascending distance order. -/
def sortedByDistance (l : List SearchHit) : Prop :=
  l.Pairwise (fun a b => a.distance ≤ b.distance)

/-- The `ORDER BY distance LIMIT k` contract: the result together with
some leftover `rest` is a permutation of the table, the result is sorted
ascending, every returned row is at most as distant as every left-out
row, at most `k` rows are returned, and fewer than `k` only when the
table is exhausted. -/
def validSearchResult (table : List SearchHit) (k : Nat)
    (res : List SearchHit) : Prop :=
  ∃ rest : List SearchHit,
    (res ++ rest).Perm table ∧
    sortedByDistance res ∧
    (∀ r ∈ res, ∀ s ∈ rest, r.distance ≤ s.distance) ∧
    res.length ≤ k ∧
    (res.length = k ∨ rest = [])

/-! ## Scan approval and ticket creation
(`app/services/compliance_scanner.py`, `JiraBotAgent.create_tickets`)

`approve_remediation` refuses any scan whose status is not
`waiting_approval`; otherwise it lets `JiraBotAgent.create_tickets`
mint one ticket id `COMP-<int(time.time())>-<idx>` per issue (the clock
is read once per iteration, passed here as an explicit function of the
iteration index) and marks the scan completed. -/

/-- A remediation issue generated by the Jira agent. -/
structure Issue where
  title : String
  description : String
  file : String
  priority : String
deriving DecidableEq, Repr

/-- The columns of a `compliance_scans` row that approval touches. -/
structure ScanState where
  status : String
  remediation_issues : List Issue
  jira_ticket_ids : List String
  user_decision : Option String
deriving DecidableEq, Repr

/-- `JiraBotAgent.create_tickets`: ticket ids are
`COMP-<epoch-seconds>-<index>`. -/
def create_tickets (issues : List Issue) (clock : Nat → Nat) :
    List String :=
  (List.range issues.length).map
    (fun idx => "COMP-" ++ toString (clock idx) ++ "-" ++ toString idx)

/-- The issue list actually ticketed: the user-edited replacement when a
non-empty one is supplied, else the stored remediation issues
(`approve_and_create_tickets`). -/
def approved_issues (s : ScanState) (edited : Option (List Issue)) :
    List Issue :=
  match edited with
  | some e => if e.isEmpty then s.remediation_issues else e
  | none => s.remediation_issues

/-- `approve_remediation`: error unless the scan is `waiting_approval`;
otherwise create the tickets, store them, mark the scan completed and
approved, and return the ticket ids. -/
def approve_remediation (s : ScanState) (edited : Option (List Issue))
    (clock : Nat → Nat) : Except String (ScanState × List String) :=
  if s.status = "waiting_approval" then
    let tickets := create_tickets (approved_issues s edited) clock
    Except.ok
      ({ s with status := "completed", user_decision := some "approved",
                jira_ticket_ids := tickets }, tickets)
  else
    Except.error
      ("Scan is not waiting for approval (status: " ++ s.status ++ ")")

/-! ## Concrete sample data used by witnesses and counterexamples -/

/-- A concrete `code_map` row owned by repository 1. -/
def sample_code_row : CodeRow :=
  { repo_id := 1, file_path := "a.py", language := "python",
    start_line := 1, end_line := 2, chunk_text := "def f(): pass",
    file_hash := "fh1", chunk_hash := "h", embedding := none,
    nl_summary := none, call_links := "[]", variables_json := "[]",
    config_keys := "[]", semantic_tags := "[]", previous_hash := none,
    delta_type := none }

/-- The same chunk text indexed for repository 2 out of a different
file: identical `chunk_text`, hence identical `chunk_hash`. -/
def sample_code_row_dup : CodeRow :=
  { sample_code_row with
    repo_id := 2, file_path := "b.py",
    file_hash := "fh2", embedding := some [1], nl_summary := some "sum" }

/-- Prior sync columns of a repository row. -/
def sample_repo_counts : RepoCounts :=
  { last_commit_sha := "oldsha", last_synced_at := 100,
    indexed_file_count := 3, total_chunks := 7 }

/-- A database state before an indexing run. -/
def sample_index_db : IndexDbState :=
  { repo := sample_repo_counts, code_map := [sample_code_row] }

/-- A concrete remediation issue. -/
def sample_issue : Issue :=
  { title := "Fix: add MFA check", description := "desc",
    file := "auth.py", priority := "high" }

/-- A scan paused at the approval gate. -/
def sample_scan : ScanState :=
  { status := "waiting_approval", remediation_issues := [sample_issue],
    jira_ticket_ids := [], user_decision := none }

/-- Wall clock observed by the first approval call. -/
def sample_clock : Nat → Nat := fun _ => 1700000000

/-- Wall clock observed by a later approval call. -/
def sample_clock2 : Nat → Nat := fun _ => 1700000777

/-- A retrieval hit in file `b.py` at distance 1. -/
def hit_b : SearchHit := { file_path := "b.py", start_line := 10, distance := 1 }

/-- A retrieval hit in file `a.py` at the same distance 1. -/
def hit_a : SearchHit := { file_path := "a.py", start_line := 2, distance := 1 }

/-- A retrieval hit at distance 1 used by the top-k witness. -/
def hit_near : SearchHit := { file_path := "x.py", start_line := 1, distance := 1 }

/-- A retrieval hit at distance 2 used by the top-k witness. -/
def hit_far : SearchHit := { file_path := "y.py", start_line := 5, distance := 2 }

/-- A Navigator retrieval row with similarity 0.8. -/
def sample_nav_row : NavRow :=
  { file_path := "f.py", chunk_text := "c", similarity := 4/5 }

/-- A Navigator retrieval row at similarity exactly 0.7. -/
def sample_nav_row_boundary : NavRow :=
  { file_path := "f.py", chunk_text := "code", similarity := 7/10 }

/-- A single piece of Investigator evidence with status `missing`. -/
def sample_evidence_missing : EvidenceItem :=
  { file := "auth.py", status := "missing", finding := "no MFA check",
    confidence := 1/2 }

/-- Three `implemented` hits whose confidences average to 2/3. -/
def sample_evidence_three : List EvidenceItem :=
  [{ file := "a.py", status := "implemented", finding := "ok",
     confidence := 1 },
   { file := "b.py", status := "implemented", finding := "ok",
     confidence := 1 },
   { file := "c.py", status := "implemented", finding := "ok",
     confidence := 0 }]

/-- A second chunk with different text, hence a different hash. -/
def sample_code_row_b : CodeRow :=
  { sample_code_row with
    file_path := "c.py", chunk_text := "def g(): pass",
    chunk_hash := "h2" }

/-! ## Helper lemmas -/

/-- Rounding two thirds to two decimals yields 0.67, not 2/3. -/
lemma pyRound2_two_thirds : pyRound2 (2/3) = 67/100 := by
  norm_num [pyRound2, roundHalfEven]

/-- One half is a fixed point of two-decimal rounding. -/
lemma pyRound2_half : pyRound2 (1/2) = 1/2 := by
  norm_num [pyRound2, roundHalfEven]

/-- The 6000-character sample estimates to exactly 1500 tokens. -/
lemma sample_text_max_tokens : estimate_tokens sample_text_max = 1500 := by
  show sample_text_max.length / 4 = 1500
  rw [show sample_text_max.length = 6000 from by
    rw [sample_text_max]
    show (List.replicate 6000 'a').length = 6000
    rw [List.length_replicate]]

/-- The 6004-character sample estimates to 1501 tokens. -/
lemma sample_text_over_tokens : estimate_tokens sample_text_over = 1501 := by
  show sample_text_over.length / 4 = 1501
  rw [show sample_text_over.length = 6004 from by
    rw [sample_text_over]
    show (List.replicate 6004 'a').length = 6004
    rw [List.length_replicate]]

/-- Mapping a row-updating function that preserves `repo_id` over a
table preserves the `repo_id` column. -/
lemma map_repo_id_pointwise (table : List CodeRow) (f : CodeRow → CodeRow)
    (hf : ∀ r, (f r).repo_id = r.repo_id) :
    (table.map f).map CodeRow.repo_id = table.map CodeRow.repo_id := by
  induction table with
  | nil => rfl
  | cons r t ih => simp [hf, ih]

/-- When no stored row shares the chunk hash, the upsert statement
appends the new row. -/
lemma upsert_row_not_found (table : List CodeRow) (c : CodeRow)
    (h : table.any (fun r => r.chunk_hash == c.chunk_hash) = false) :
    upsert_row table c = table ++ [c] := by
  simp [upsert_row, h]

/-- When some stored row shares the chunk hash, the upsert statement
updates in place: no row is added and every row keeps its `repo_id`. -/
lemma upsert_row_found (table : List CodeRow) (c : CodeRow)
    (h : table.any (fun r => r.chunk_hash == c.chunk_hash) = true) :
    (upsert_row table c).length = table.length ∧
    (upsert_row table c).map CodeRow.repo_id =
      table.map CodeRow.repo_id := by
  have hform : upsert_row table c = table.map (fun r =>
      if r.chunk_hash == c.chunk_hash then
        { r with embedding := c.embedding, nl_summary := c.nl_summary,
                 call_links := c.call_links,
                 variables_json := c.variables_json,
                 config_keys := c.config_keys,
                 semantic_tags := c.semantic_tags,
                 previous_hash := c.previous_hash,
                 delta_type := c.delta_type }
      else r) := by
    simp [upsert_row, h]
  constructor
  · rw [hform, List.length_map]
  · rw [hform]
    exact map_repo_id_pointwise table _ (fun r => by split <;> rfl)

/-- `live_count` distributes over appended tables. -/
lemma live_count_append (t1 t2 : List CodeRow) (R : Nat) :
    live_count (t1 ++ t2) R = live_count t1 R + live_count t2 R := by
  simp [live_count, List.filter_append]

/-- Inserting a batch of chunks whose hashes are fresh for the table and
pairwise distinct grows each repository's live row count by its share of
the batch. -/
lemma insert_batch_live_count (chunks : List CodeRow) :
    ∀ (table : List CodeRow) (R : Nat),
      (∀ c ∈ chunks, ∀ r ∈ table, c.chunk_hash ≠ r.chunk_hash) →
      chunks.Pairwise (fun a b => a.chunk_hash ≠ b.chunk_hash) →
      live_count (insert_batch table chunks) R =
        live_count table R +
          (chunks.filter (fun c => c.repo_id == R)).length := by
  induction chunks with
  | nil =>
    intro table R _ _
    simp [insert_batch]
  | cons c rest ih =>
    intro table R hfresh hdist
    have hanyf : table.any (fun r => r.chunk_hash == c.chunk_hash)
        = false := by
      rw [List.any_eq_false]
      intro r hr
      simp only [beq_iff_eq]
      exact fun hEq => hfresh c (List.mem_cons_self _ _) r hr hEq.symm
    have h1 : insert_batch table (c :: rest)
        = insert_batch (table ++ [c]) rest := by
      simp only [insert_batch, List.foldl_cons,
        upsert_row_not_found table c hanyf]
    have hfresh2 : ∀ c2 ∈ rest, ∀ r ∈ table ++ [c],
        c2.chunk_hash ≠ r.chunk_hash := by
      intro c2 hc2 r hr
      rcases List.mem_append.mp hr with hr | hr
      · exact hfresh c2 (List.mem_cons_of_mem _ hc2) r hr
      · have hrc : r = c := List.mem_singleton.mp hr
        subst hrc
        exact ((List.pairwise_cons.mp hdist).1 c2 hc2).symm
    rw [h1, ih (table ++ [c]) R hfresh2 (List.pairwise_cons.mp hdist).2,
      live_count_append]
    by_cases hc : c.repo_id == R
    · simp [live_count, List.filter_cons, hc]
      omega
    · simp [live_count, List.filter_cons, hc]

/-! ## Claim C1: coercion of malformed adjudication output -/

/-- Claim C1 counterexample: on an unparseable provider payload (the
empty string raises `json.JSONDecodeError`), `analyze_compliance`
coerces the verdict to `unknown`, not to `unclear` as the specification
states. -/
theorem analyze_compliance_empty_payload_not_unclear :
    (analyze_compliance_result none "").verdict = "unknown" ∧
    (analyze_compliance_result none "").verdict ≠ "unclear" := by
  constructor
  · rfl
  · decide

/-- Claim C1 (amended): whenever the provider response fails to parse as
JSON, `analyze_compliance` returns the coerced result with verdict
`unknown` (not `unclear`), severity `medium`, severity_score 5.0, and
the raw provider payload as explanation; a successfully parsed response
is returned unchanged, and a verdict of `unclear` can only come from a
parsed response. -/
theorem analyze_compliance_malformed_coerces_unknown (response : String) :
    (analyze_compliance_result none response).verdict = "unknown" ∧
    (analyze_compliance_result none response).severity = "medium" ∧
    (analyze_compliance_result none response).severity_score = 5 ∧
    (analyze_compliance_result none response).explanation = response ∧
    (∀ r, analyze_compliance_result (some r) response = r) ∧
    (∀ parsed, (analyze_compliance_result parsed response).verdict =
        "unclear" → ∃ r, parsed = some r ∧ r.verdict = "unclear") := by
  refine ⟨rfl, rfl, rfl, rfl, fun r => rfl, ?_⟩
  intro parsed h
  match parsed with
  | some r => exact ⟨r, rfl, h⟩
  | none =>
      have hne : ("unknown" : String) ≠ "unclear" := by decide
      exact absurd h hne

/-- Claim C1 witness: the amended coercion evaluated on the concrete
payload `not json`. -/
theorem analyze_compliance_malformed_witness :
    (analyze_compliance_result none "not json").verdict = "unknown" ∧
    (analyze_compliance_result none "not json").explanation = "not json" :=
  ⟨(analyze_compliance_malformed_coerces_unknown "not json").1,
   (analyze_compliance_malformed_coerces_unknown "not json").2.2.2.1⟩

/-! ## Claim C8: token estimation and chunk normalization -/

/-- Claim C8 counterexample: `estimate_tokens` is floor division by 4,
not the ceiling — a five-character text estimates to 1 token where the
specified `⌈len/4⌉` would give 2. -/
theorem estimate_tokens_floor_not_ceiling :
    estimate_tokens "aaaaa" = 1 ∧ ("aaaaa".length + 3) / 4 = 2 := by
  decide

/-- Claim C8 (amended): the chunker's token estimate is `⌊len/4⌋`;
with the default limits, a draft estimating below `min_tokens` is
dropped, a draft estimating to exactly `max_tokens` is kept as a single
unsplit chunk, and a draft estimating one token over goes through
`_split_large_chunk`, every resulting sub-chunk carrying the split
marker. -/
theorem chunk_file_token_normalization (hashFn : String → String)
    (fp lang : String) (d : AstChunk) :
    estimate_tokens d.text = d.text.length / 4 ∧
    (estimate_tokens d.text < min_chunk_tokens →
      chunk_file_ast min_chunk_tokens max_chunk_tokens hashFn fp lang [d]
        = []) ∧
    (min_chunk_tokens ≤ estimate_tokens d.text →
      estimate_tokens d.text ≤ max_chunk_tokens →
      chunk_file_ast min_chunk_tokens max_chunk_tokens hashFn fp lang [d]
        = [{ file_path := fp, language := lang,
             start_line := d.start_line, end_line := d.end_line,
             chunk_text := d.text, ast_node_type := some d.node_type,
             chunk_hash := hashFn d.text, split_mark := false }]) ∧
    (max_chunk_tokens < estimate_tokens d.text →
      chunk_file_ast min_chunk_tokens max_chunk_tokens hashFn fp lang [d]
        = split_large_chunk max_chunk_tokens hashFn fp lang d.text
            d.start_line ∧
      ∀ c ∈ chunk_file_ast min_chunk_tokens max_chunk_tokens hashFn fp
          lang [d], c.split_mark = true) := by
  refine ⟨rfl, ?_, ?_, ?_⟩
  · intro h
    simp only [chunk_file_ast, List.foldl_cons, List.foldl_nil]
    rw [if_pos h]
  · intro hmin hmax
    simp only [chunk_file_ast, List.foldl_cons, List.foldl_nil]
    rw [if_neg (Nat.not_lt.mpr hmin), if_neg (Nat.not_lt.mpr hmax)]
    simp
  · intro h
    have hnotlt : ¬ estimate_tokens d.text < min_chunk_tokens := by
      intro hc
      exact absurd (lt_trans h hc) (by decide)
    constructor
    · simp only [chunk_file_ast, List.foldl_cons, List.foldl_nil]
      rw [if_neg hnotlt, if_pos h]
      simp
    · intro c hc
      simp only [chunk_file_ast, List.foldl_cons, List.foldl_nil] at hc
      rw [if_neg hnotlt, if_pos h] at hc
      simp only [List.nil_append, split_large_chunk, List.mem_map] at hc
      obtain ⟨i, _, rfl⟩ := hc
      rfl

/-- Claim C8 witness: the three boundary behaviors evaluated on
concrete drafts — a 5-character draft is dropped, a 6000-character draft
(exactly 1500 tokens) stays a single chunk, and a 6004-character draft
(1501 tokens) yields only split-marked chunks. -/
theorem chunk_file_token_normalization_witness :
    (estimate_tokens sample_text_small < min_chunk_tokens ∧
      chunk_file_ast min_chunk_tokens max_chunk_tokens (fun s => s)
        "a.py" "python" [sample_draft sample_text_small] = []) ∧
    (min_chunk_tokens ≤ estimate_tokens sample_text_max ∧
      estimate_tokens sample_text_max ≤ max_chunk_tokens ∧
      chunk_file_ast min_chunk_tokens max_chunk_tokens (fun s => s)
        "a.py" "python" [sample_draft sample_text_max]
        = [{ file_path := "a.py", language := "python",
             start_line := 1, end_line := 40,
             chunk_text := sample_text_max,
             ast_node_type := some "function_definition",
             chunk_hash := sample_text_max, split_mark := false }]) ∧
    (max_chunk_tokens < estimate_tokens sample_text_over ∧
      ∀ c ∈ chunk_file_ast min_chunk_tokens max_chunk_tokens (fun s => s)
          "a.py" "python" [sample_draft sample_text_over],
        c.split_mark = true) := by
  have hsmall : estimate_tokens sample_text_small < min_chunk_tokens := by
    decide
  have hmax1 : min_chunk_tokens ≤ estimate_tokens sample_text_max := by
    rw [show estimate_tokens sample_text_max
          = estimate_tokens (sample_draft sample_text_max).text from rfl,
      show (sample_draft sample_text_max).text = sample_text_max from rfl,
      sample_text_max_tokens]
    decide
  have hmax2 : estimate_tokens sample_text_max ≤ max_chunk_tokens := by
    rw [sample_text_max_tokens]; decide
  have hover : max_chunk_tokens < estimate_tokens sample_text_over := by
    rw [sample_text_over_tokens]; decide
  refine ⟨⟨hsmall, ?_⟩, ⟨hmax1, hmax2, ?_⟩, ⟨hover, ?_⟩⟩
  · exact (chunk_file_token_normalization (fun s => s) "a.py" "python"
      (sample_draft sample_text_small)).2.1 hsmall
  · exact (chunk_file_token_normalization (fun s => s) "a.py" "python"
      (sample_draft sample_text_max)).2.2.1 hmax1 hmax2
  · exact ((chunk_file_token_normalization (fun s => s) "a.py" "python"
      (sample_draft sample_text_over)).2.2.2 hover).2

/-! ## Claim C10: empty evidence list yields a compliant verdict -/

/-- Claim C10: with zero matched hits the Investigator's `all` over an
empty list is vacuously true, so the case-level verdict is `compliant`
with confidence 0.5 and evidence_count 0. -/
theorem empty_evidence_verdict_compliant :
    case_verdict [] =
      { final_verdict := "compliant", confidence := 1/2,
        reason := "All compliance controls properly implemented",
        evidence_count := 0 } := by
  norm_num [case_verdict, investigator_overall_status, judge_verdict,
    pyRound2, roundHalfEven]

/-! ## Claim C4: the step partition of an audit case -/

/-- Claim C4 counterexample: the row `start_audit` inserts has
`current_step = rule_ingestion` while `steps_pending` still lists every
workflow step, so at creation the three collections are not pairwise
disjoint. -/
theorem initial_case_current_step_still_pending :
    ¬ caseStepClaimInvariant initial_case := by
  rintro ⟨-, -, -, h⟩
  exact h "rule_ingestion" (by decide) rfl

/-- Claim C4 (amended): at creation, after every `_mark_step_complete`,
at the approval pause and at completion, the union of `steps_completed`,
`current_step` and `steps_pending` is exactly the workflow step set,
`steps_completed` and `steps_pending` are disjoint, and the current step
is never already completed — but the current step, while set, always
remains listed in `steps_pending`. -/
theorem audit_case_step_partition :
    ∀ c ∈ audit_case_states, caseStepCodeInvariant c := by
  decide

/-- Claim C4 witness: the amended partition invariant evaluated on the
freshly created case row. -/
theorem audit_case_step_partition_witness :
    initial_case ∈ audit_case_states ∧ caseStepCodeInvariant initial_case :=
  ⟨by decide, audit_case_step_partition initial_case (by decide)⟩

/-! ## Claim C5: similarity gating thresholds -/

/-- Claim C5 counterexample: a Navigator hit at similarity exactly 0.7
is dropped (`row['similarity'] > 0.7` is strict), although 0.7 meets
the configured threshold. -/
theorem navigator_drops_exact_threshold :
    navigator_filter [sample_nav_row_boundary] "task" = [] ∧
    (7/10 : ℚ) ≥ similarity_threshold := by
  constructor
  · simp only [navigator_filter, sample_nav_row_boundary,
      List.filter_cons, List.filter_nil, decide_eq_true_eq]
    norm_num
  · norm_num [similarity_threshold]

/-- Claim C5 (amended): the compliance-analysis worker keeps a hit iff
its similarity `1 - distance` is at least the 0.7 threshold (a missing
distance defaults to 1.0 and is dropped), while the Navigator keeps a
hit iff its similarity strictly exceeds 0.7 — so a hit at exactly 0.7
is kept by the worker but dropped by the Navigator. -/
theorem similarity_gating_boundaries :
    (∀ d : ℚ, analyze_keeps (some d) = true ↔ similarity_threshold ≤ 1 - d) ∧
    analyze_keeps none = false ∧
    analyze_keeps (some (3/10)) = true ∧
    (∀ (rows : List NavRow) (task : String) (m : NavMatch),
      m ∈ navigator_filter rows task ↔
        ∃ r, r ∈ rows ∧ 7/10 < r.similarity ∧ nav_match_of task r = m) := by
  refine ⟨?_, ?_, ?_, ?_⟩
  · intro d
    simp only [analyze_keeps, Option.getD, similarity_threshold]
    by_cases h : d > 1 - 7/10
    · rw [if_pos h]
      constructor
      · intro hfalse
        exact absurd hfalse (by decide)
      · intro hle
        exfalso
        linarith
    · rw [if_neg h]
      constructor
      · intro _
        linarith [not_lt.mp h]
      · intro _
        rfl
  · norm_num [analyze_keeps, similarity_threshold]
  · norm_num [analyze_keeps, similarity_threshold]
  · intro rows task m
    simp only [navigator_filter, List.mem_map, List.mem_filter,
      decide_eq_true_eq]
    constructor
    · rintro ⟨r, ⟨hr, hs⟩, hm⟩
      exact ⟨r, hr, hs, hm⟩
    · rintro ⟨r, hr, hs, hm⟩
      exact ⟨r, ⟨hr, hs⟩, hm⟩

/-- Claim C5 witness: the gating boundaries evaluated at distance 0.3
(similarity exactly 0.7) and on a one-row Navigator table. -/
theorem similarity_gating_boundaries_witness :
    analyze_keeps (some (3/10)) = true ∧
    (nav_match_of "t" sample_nav_row ∈
        navigator_filter [sample_nav_row] "t" ↔
      ∃ r, r ∈ [sample_nav_row] ∧ 7/10 < r.similarity ∧
        nav_match_of "t" r = nav_match_of "t" sample_nav_row) :=
  ⟨similarity_gating_boundaries.2.2.1,
   similarity_gating_boundaries.2.2.2 [sample_nav_row] "t"
     (nav_match_of "t" sample_nav_row)⟩

/-! ## Claim C9: a failed index run leaves the repo row unchanged -/

/-- Claim C9: if the indexing run raises during any of its five stages
(clone, walk/chunk, enrich, `insert_batch`, `update_sync_status`), the
result status is `failed` and the repository row keeps its previous
`last_commit_sha`, `indexed_file_count` and `total_chunks` — even when
the chunk upserts of stage 3 have already been committed. -/
theorem failed_index_preserves_repo_row (chunks : List CodeRow)
    (sha : String) (now fc : Nat) (db : IndexDbState) (k : Nat)
    (hk : k ≤ 4) :
    (run_index chunks sha now fc db (some k)).2 = "failed" ∧
    (run_index chunks sha now fc db (some k)).1.repo = db.repo := by
  refine ⟨rfl, ?_⟩
  interval_cases k <;>
    simp [run_index, run_index_stages, index_stage_effect,
      List.range_succ]

/-- Claim C9 witness: a run failing during `update_sync_status`
(stage 4) on a concrete database: the repo row survives although the
chunk batch was inserted. -/
theorem failed_index_preserves_repo_row_witness :
    (4 : Nat) ≤ 4 ∧
    (run_index [sample_code_row_dup] "newsha" 200 5 sample_index_db
      (some 4)).2 = "failed" ∧
    (run_index [sample_code_row_dup] "newsha" 200 5 sample_index_db
      (some 4)).1.repo = sample_index_db.repo :=
  ⟨by decide,
   (failed_index_preserves_repo_row [sample_code_row_dup] "newsha" 200 5
     sample_index_db 4 (by decide)).1,
   (failed_index_preserves_repo_row [sample_code_row_dup] "newsha" 200 5
     sample_index_db 4 (by decide)).2⟩

/-! ## Claim C6: case-level verdict aggregation -/

/-- Claim C6 counterexample: on three implemented hits with confidences
1, 1 and 0 the arithmetic mean is 2/3, but the Judge stores
`round(2/3, 2) = 0.67`, which differs from the mean. -/
theorem judge_confidence_is_rounded_mean :
    (case_verdict sample_evidence_three).confidence = 67/100 ∧
    (sample_evidence_three.map EvidenceItem.confidence).sum /
      (sample_evidence_three.length : ℚ) = 2/3 ∧
    (67/100 : ℚ) ≠ 2/3 := by
  refine ⟨?_, by norm_num [sample_evidence_three], by norm_num⟩
  norm_num [case_verdict, investigator_overall_status, judge_verdict,
    sample_evidence_three, pyRound2, roundHalfEven]

/-- Claim C6 (amended): for a non-empty evidence list the case verdict
is `non_compliant` when any hit is `missing`, `compliant` when all hits
are `implemented`, and `partial` otherwise; the stored case confidence
is the arithmetic mean of the hit confidences rounded to two decimal
places (Python `round(·, 2)`), and `evidence_count` is the number of
hits. -/
theorem judge_aggregation (evidence : List EvidenceItem)
    (h : evidence ≠ []) :
    (case_verdict evidence).final_verdict =
      (if evidence.any (fun e => e.status == "missing") then
        "non_compliant"
       else if evidence.all (fun e => e.status == "implemented") then
        "compliant"
       else "partial") ∧
    (case_verdict evidence).confidence =
      pyRound2 ((evidence.map EvidenceItem.confidence).sum /
        (evidence.length : ℚ)) ∧
    (case_verdict evidence).evidence_count = evidence.length := by
  have hne : (evidence.map EvidenceItem.confidence).isEmpty = false := by
    cases evidence with
    | nil => exact absurd rfl h
    | cons e t => rfl
  have hconf : ∀ status, (judge_verdict status evidence).confidence =
      pyRound2 ((evidence.map EvidenceItem.confidence).sum /
        (evidence.length : ℚ)) := by
    intro status
    simp only [judge_verdict, hne, Bool.false_eq_true, if_false,
      List.length_map]
    split_ifs <;> rfl
  have hcount : ∀ status,
      (judge_verdict status evidence).evidence_count = evidence.length := by
    intro status
    simp only [judge_verdict]
    split_ifs <;> rfl
  refine ⟨?_, hconf _, hcount _⟩
  by_cases hM : evidence.any (fun e => e.status == "missing") = true
  · have hA : evidence.all (fun e => e.status == "implemented")
        = false := by
      obtain ⟨e, he, hm⟩ := List.any_eq_true.mp hM
      rw [List.all_eq_false]
      refine ⟨e, he, ?_⟩
      rw [beq_iff_eq] at hm
      simp [hm]
    simp only [case_verdict, investigator_overall_status, hA,
      Bool.false_eq_true, if_false, hM, if_true, judge_verdict]
    split_ifs with h1 h2 <;> simp_all
  · have hM' : evidence.any (fun e => e.status == "missing") = false :=
      Bool.not_eq_true _ ▸ eq_false hM ▸ by simp [hM]
    by_cases hA : evidence.all (fun e => e.status == "implemented") = true
    · simp only [case_verdict, investigator_overall_status, hA, if_true,
        hM', Bool.false_eq_true, if_false, judge_verdict]
      split_ifs with h1 <;> simp_all
    · have hA' : evidence.all (fun e => e.status == "implemented")
          = false := by
        cases hcase : evidence.all (fun e => e.status == "implemented")
        · rfl
        · exact absurd hcase hA
      simp only [case_verdict, investigator_overall_status, hA',
        Bool.false_eq_true, if_false, hM', judge_verdict]
      split_ifs with h1 h2 <;> simp_all

/-- Claim C6 witness: the amended aggregation evaluated on a single
`missing` hit. -/
theorem judge_aggregation_witness :
    ([sample_evidence_missing] : List EvidenceItem) ≠ [] ∧
    (case_verdict [sample_evidence_missing]).evidence_count = 1 :=
  ⟨by decide,
   (judge_aggregation [sample_evidence_missing] (by decide)).2.2⟩

/-! ## Claim C3: repo counts versus live chunks and the upsert key -/

/-- Claim C3 counterexample: the upsert key is `chunk_hash` alone, so
indexing for repository 2 a chunk whose text already exists in
repository 1 updates repository 1's row in place: repository 2 records
`total_chunks = 1` while owning zero live rows. -/
theorem cross_repo_chunk_collapse :
    (index_pass_persist [sample_code_row] sample_repo_counts
      [sample_code_row_dup] "sha2" 200 1).2.total_chunks = 1 ∧
    live_count (index_pass_persist [sample_code_row] sample_repo_counts
      [sample_code_row_dup] "sha2" 200 1).1 2 = 0 ∧
    (index_pass_persist [sample_code_row] sample_repo_counts
      [sample_code_row_dup] "sha2" 200 1).1.map CodeRow.repo_id = [1] := by
  decide

/-- Claim C3 (amended): after an index pass the stored `total_chunks`
and `indexed_file_count` are the numbers of produced chunk dictionaries
and processed files, not a recount of live rows; the upsert key is
`chunk_hash` alone, so a chunk whose hash already exists anywhere
updates that row in place (keeping its `repo_id` and adding no row),
a fresh hash appends a row, and the stored count matches the live row
count exactly when the batch's hashes are fresh and pairwise distinct. -/
theorem insert_batch_hash_upsert_semantics :
    (∀ (table : List CodeRow) (repo : RepoCounts)
        (chunks : List CodeRow) (sha : String) (now fc : Nat),
      (index_pass_persist table repo chunks sha now fc).2.total_chunks
          = chunks.length ∧
      (index_pass_persist table repo chunks sha now fc).2.indexed_file_count
          = fc) ∧
    (∀ (table : List CodeRow) (c : CodeRow),
      table.any (fun r => r.chunk_hash == c.chunk_hash) = true →
      (upsert_row table c).length = table.length ∧
      (upsert_row table c).map CodeRow.repo_id
        = table.map CodeRow.repo_id) ∧
    (∀ (table : List CodeRow) (c : CodeRow),
      table.any (fun r => r.chunk_hash == c.chunk_hash) = false →
      upsert_row table c = table ++ [c]) ∧
    (∀ (chunks table : List CodeRow) (R : Nat),
      (∀ c ∈ chunks, ∀ r ∈ table, c.chunk_hash ≠ r.chunk_hash) →
      chunks.Pairwise (fun a b => a.chunk_hash ≠ b.chunk_hash) →
      live_count (insert_batch table chunks) R =
        live_count table R +
          (chunks.filter (fun c => c.repo_id == R)).length) := by
  refine ⟨?_, ?_, ?_, ?_⟩
  · intro table repo chunks sha now fc
    exact ⟨rfl, rfl⟩
  · intro table c h
    exact upsert_row_found table c h
  · intro table c h
    exact upsert_row_not_found table c h
  · intro chunks table R hfresh hdist
    exact insert_batch_live_count chunks table R hfresh hdist

/-- Claim C3 witness: inserting two fresh, distinct-hash chunks of
repository 1 into an empty table yields a live count of two, matching
the recorded batch size. -/
theorem insert_batch_hash_upsert_semantics_witness :
    (∀ c ∈ [sample_code_row, sample_code_row_b],
      ∀ r ∈ ([] : List CodeRow), c.chunk_hash ≠ r.chunk_hash) ∧
    ([sample_code_row, sample_code_row_b].Pairwise
      (fun a b => a.chunk_hash ≠ b.chunk_hash)) ∧
    live_count (insert_batch [] [sample_code_row, sample_code_row_b]) 1 =
      live_count ([] : List CodeRow) 1 +
        (([sample_code_row, sample_code_row_b].filter
          (fun c => c.repo_id == 1)).length) :=
  ⟨by decide, by decide,
   insert_batch_hash_upsert_semantics.2.2.2
     [sample_code_row, sample_code_row_b] [] 1 (by decide) (by decide)⟩

/-! ## Claim C7: top-k retrieval order -/

/-- Claim C7 counterexample: the retrieval query has no tie-break
column, so on two rows at equal distance the contract admits an output
in which the lexicographically larger `file_path` comes first. -/
theorem search_tie_order_unspecified :
    validSearchResult [hit_b, hit_a] 2 [hit_b, hit_a] ∧
    hit_b.distance = hit_a.distance ∧
    hit_a.file_path < hit_b.file_path := by
  refine ⟨⟨[], ?_, ?_, ?_, ?_, Or.inl rfl⟩, rfl, ?_⟩
  · simp
  · refine List.Pairwise.cons ?_ (List.pairwise_singleton _ _)
    intro b hb
    rw [List.mem_singleton] at hb
    subst hb
    norm_num [hit_a, hit_b]
  · intro r _ s hs
    exact absurd hs (List.not_mem_nil s)
  · decide
  · show hit_a.file_path < hit_b.file_path
    rw [show hit_a.file_path = "a.py" from rfl,
      show hit_b.file_path = "b.py" from rfl,
      String.lt_iff_toList_lt]
    decide

/-- Claim C7 (amended): every output admitted by the
`ORDER BY distance LIMIT k` contract has exactly `min N k` rows (for a
table of `N` rows) in ascending distance order; the arrangement of rows
at equal distance is unspecified. -/
theorem search_similar_topk_sorted (table res : List SearchHit) (k : Nat)
    (h : validSearchResult table k res) :
    res.length = min table.length k ∧ sortedByDistance res := by
  obtain ⟨rest, hperm, hsort, hbound, hle, hfull⟩ := h
  refine ⟨?_, hsort⟩
  have hlen := hperm.length_eq
  rw [List.length_append] at hlen
  rcases hfull with hk | hrest
  · have hkle : k ≤ table.length := by omega
    rw [Nat.min_eq_right hkle]
    exact hk
  · subst hrest
    have hres : res.length = table.length := by simpa using hlen
    rw [Nat.min_eq_left (hres ▸ hle)]
    exact hres

/-- Claim C7 witness: querying two rows at distances 1 and 2 with
`top_k = 1` validly returns exactly the closer row, sorted. -/
theorem search_similar_topk_sorted_witness :
    validSearchResult [hit_near, hit_far] 1 [hit_near] ∧
    ([hit_near] : List SearchHit).length =
      min ([hit_near, hit_far] : List SearchHit).length 1 ∧
    sortedByDistance [hit_near] := by
  have hvalid : validSearchResult [hit_near, hit_far] 1 [hit_near] := by
    refine ⟨[hit_far], List.Perm.refl _, List.pairwise_singleton _ _,
      ?_, by decide, Or.inl rfl⟩
    intro r hr s hs
    rw [List.mem_singleton] at hr hs
    subst hr
    subst hs
    norm_num [hit_near, hit_far]
  exact ⟨hvalid,
    (search_similar_topk_sorted [hit_near, hit_far] [hit_near] 1 hvalid).1,
    (search_similar_topk_sorted [hit_near, hit_far] [hit_near] 1 hvalid).2⟩

/-! ## Claim C2: double approval and ticket idempotency -/

/-- Claim C2 counterexample: approving a waiting scan succeeds and marks
it completed, but a second approval raises an error instead of being a
no-op returning the same `jira_ticket_ids`; moreover the ticket id is
derived from the wall clock, not from `(case_id, finding_id)` — the
same issue list ticketed at two different times yields different ids. -/
theorem approve_twice_not_noop :
    approve_remediation sample_scan none sample_clock =
      Except.ok
        ({ status := "completed", remediation_issues := [sample_issue],
           jira_ticket_ids := ["COMP-1700000000-0"],
           user_decision := some "approved" }, ["COMP-1700000000-0"]) ∧
    approve_remediation
      { status := "completed", remediation_issues := [sample_issue],
        jira_ticket_ids := ["COMP-1700000000-0"],
        user_decision := some "approved" } none sample_clock2 =
      Except.error "Scan is not waiting for approval (status: completed)" ∧
    create_tickets [sample_issue] sample_clock ≠
      create_tickets [sample_issue] sample_clock2 := by
  refine ⟨rfl, rfl, ?_⟩
  decide

/-- Claim C2 (amended): approving a `waiting_approval` scan creates one
wall-clock-named ticket per approved issue, stores the ids and marks the
scan completed; a second approval call raises (`Scan is not waiting for
approval`), so tickets are created at most once — by the status guard,
not by any `(case_id, finding_id)` natural key. -/
theorem approve_remediation_once (s : ScanState)
    (edited edited2 : Option (List Issue)) (clock clock2 : Nat → Nat)
    (h : s.status = "waiting_approval") :
    approve_remediation s edited clock =
      Except.ok
        ({ s with
             status := "completed",
             user_decision := some "approved",
             jira_ticket_ids :=
               create_tickets (approved_issues s edited) clock },
         create_tickets (approved_issues s edited) clock) ∧
    (create_tickets (approved_issues s edited) clock).length =
      (approved_issues s edited).length ∧
    approve_remediation
      { s with
          status := "completed"
          user_decision := some "approved"
          jira_ticket_ids :=
            create_tickets (approved_issues s edited) clock }
      edited2 clock2 =
      Except.error "Scan is not waiting for approval (status: completed)"
    := by
  refine ⟨?_, ?_, ?_⟩
  · rw [approve_remediation, if_pos h]
  · simp [create_tickets]
  · have hne : ({ s with
          status := "completed"
          user_decision := some "approved"
          jira_ticket_ids :=
            create_tickets (approved_issues s edited) clock } :
        ScanState).status ≠ "waiting_approval" := by
      simp
    rw [approve_remediation, if_neg hne]
    rfl

/-- Claim C2 witness: the once-only approval behavior on a concrete
waiting scan with one remediation issue. -/
theorem approve_remediation_once_witness :
    sample_scan.status = "waiting_approval" ∧
    approve_remediation
      { sample_scan with
          status := "completed"
          user_decision := some "approved"
          jira_ticket_ids :=
            create_tickets (approved_issues sample_scan none) sample_clock }
      none sample_clock2 =
      Except.error "Scan is not waiting for approval (status: completed)"
    :=
  ⟨rfl,
   (approve_remediation_once sample_scan none none sample_clock
     sample_clock2 rfl).2.2⟩

end IBMW
